import Mathlib

/-!
Verification of the proctored-interview core of the talentis.ai repository.

The definitions below are shallow embeddings of the JavaScript source:
* `addProctoringFlag`, `calculateHeadPose`, `getCenter`, `singleFaceChecks`
  come from the `InterviewRoom` component (src/unnamed/part_005);
* `startInterview`, `stopInterview`, `nextQuestion`, `uploadChunk`,
  `nativeTick`, `fallbackTick` come from
  src/frontend/src/components/InterviewRecorder.jsx;
* `legacyTick`, `roomStartInterview` come from the variant recorder in
  src/unnamed/part_000 and the room component in src/unnamed/part_005.

Wall-clock instants are milliseconds as `Int`; JavaScript floating-point
landmark coordinates and the skin-pixel ratio are modelled exactly over `ℚ`.
-/

/-- Violation types recorded by the InterviewRoom aggregator (part_005). -/
inductive FlagType where
  | noFace
  | multipleFaces
  | headTurned
  | headTilted
deriving DecidableEq

/-- One entry of the append-only proctoring log of part_005
(`{type, description, timestamp, questionIndex}`; the description string is
determined by the type and is not tracked). -/
structure ProctorFlag where
  type : FlagType
  timestamp : Int
  questionIndex : Nat
deriving DecidableEq

/-- Observable state of the part_005 aggregator: the `proctoringFlags` log,
the flags posted to the server by `sendProctoringFlag`, and the flags for
which a warning toast was shown. -/
structure ProctorState where
  flags : List ProctorFlag
  sent : List ProctorFlag
  toasts : List ProctorFlag
deriving DecidableEq

def emptyProctorState : ProctorState := ⟨[], [], []⟩

/-- The `recentFlag` test of `addProctoringFlag` (part_005, lines 252-255):
a previous flag of the same type with
`new Date(f.timestamp).getTime() > Date.now() - 5000`. -/
def isRecent (t : FlagType) (now : Int) (f : ProctorFlag) : Bool :=
  decide (f.type = t) && decide (now - 5000 < f.timestamp)

def isNoFaceFlag (f : ProctorFlag) : Bool :=
  decide (f.type = FlagType.noFace)

/-- The toast condition of `addProctoringFlag` (part_005, line 262):
`type !== NO_FACE || prev.filter(f => f.type === NO_FACE).length % 3 === 0`. -/
def noFaceNotify (t : FlagType) (flags : List ProctorFlag) : Bool :=
  decide (t ≠ FlagType.noFace) || decide ((flags.filter isNoFaceFlag).length % 3 = 0)

/-- `addProctoringFlag` from part_005 (lines 242-270): if a flag of the same
type was recorded within the last 5000 ms the call leaves the state
untouched; otherwise the new flag is appended to the log, posted to the
server, and toasted unless the NO_FACE 1-in-3 rule withholds the toast. -/
def addProctoringFlag (t : FlagType) (now : Int) (q : Nat) (s : ProctorState) : ProctorState :=
  if s.flags.any (isRecent t now) then s
  else
    { flags := s.flags ++ [⟨t, now, q⟩]
      sent := s.sent ++ [⟨t, now, q⟩]
      toasts := if noFaceNotify t s.flags then s.toasts ++ [⟨t, now, q⟩] else s.toasts }

/-- Claim C1: a violation-record call whose type already occurs in the log
within the previous 5000 ms is suppressed: the state (log, server sends,
notifications) is exactly unchanged, so only the first occurrence in such a
5-second window is appended and notified. -/
theorem c1_same_type_window_suppressed (s : ProctorState) (t : FlagType) (now : Int) (q : Nat)
    (h : ∃ f ∈ s.flags, f.type = t ∧ now - 5000 < f.timestamp) :
    addProctoringFlag t now q s = s := by
  rcases h with ⟨f, hf, h1, h2⟩
  have hany : s.flags.any (isRecent t now) = true := by
    refine List.any_eq_true.mpr ⟨f, hf, ?_⟩
    simp only [isRecent, Bool.and_eq_true, decide_eq_true_eq]
    exact ⟨h1, h2⟩
  simp [addProctoringFlag, hany]

/-- Witness for C1: with a NO_FACE flag at t = 1000 ms in the log, a NO_FACE
call at t = 3000 ms is inside the 5-second window and changes nothing. -/
theorem c1_same_type_window_suppressed_witness :
    addProctoringFlag FlagType.noFace 3000 0
      ⟨[⟨FlagType.noFace, 1000, 0⟩], [⟨FlagType.noFace, 1000, 0⟩], [⟨FlagType.noFace, 1000, 0⟩]⟩
      = ⟨[⟨FlagType.noFace, 1000, 0⟩], [⟨FlagType.noFace, 1000, 0⟩], [⟨FlagType.noFace, 1000, 0⟩]⟩ :=
  c1_same_type_window_suppressed _ _ _ _
    ⟨⟨FlagType.noFace, 1000, 0⟩, by simp, rfl, by decide⟩

/-- Claim C5 (counterexample): the NO_FACE 1-in-3 notification counter of
`addProctoringFlag` counts over the whole session, not per run. A session
with one NO_FACE flag at t = 0 (appended and notified), followed by a fresh
run of non-suppressed NO_FACE calls at t = 10000, 15000, 20000 ms (every gap
is the full 5000 ms window, so none is suppressed), appends all of them — the
log holds 4 entries — yet the first occurrence of the run (t = 10000) is NOT
notified while its third (t = 20000) IS: the toasts are exactly the flags at
t = 0 and t = 20000, refuting "only occurrences 1, 4, 7, 10 of any run are
notified". -/
theorem c5_run_notify_counterexample :
    (addProctoringFlag FlagType.noFace 20000 0
      (addProctoringFlag FlagType.noFace 15000 0
        (addProctoringFlag FlagType.noFace 10000 0
          (addProctoringFlag FlagType.noFace 0 0 emptyProctorState)))).flags
      = [⟨FlagType.noFace, 0, 0⟩, ⟨FlagType.noFace, 10000, 0⟩,
         ⟨FlagType.noFace, 15000, 0⟩, ⟨FlagType.noFace, 20000, 0⟩] ∧
    (addProctoringFlag FlagType.noFace 20000 0
      (addProctoringFlag FlagType.noFace 15000 0
        (addProctoringFlag FlagType.noFace 10000 0
          (addProctoringFlag FlagType.noFace 0 0 emptyProctorState)))).toasts
      = [⟨FlagType.noFace, 0, 0⟩, ⟨FlagType.noFace, 20000, 0⟩] := by
  decide

/-- Claim C5 (amended): every non-suppressed NO_FACE occurrence is appended
to the log and increments the session-wide NO_FACE count; a user-facing
notification is surfaced for it exactly when the number of NO_FACE entries
already in the log is divisible by 3. Counting non-suppressed NO_FACE
occurrences over the whole session (not per run), occurrences 1, 4, 7, 10
notify. -/
theorem c5_no_face_every_third (s : ProctorState) (now : Int) (q : Nat)
    (h : s.flags.any (isRecent FlagType.noFace now) = false) :
    (addProctoringFlag FlagType.noFace now q s).flags
      = s.flags ++ [⟨FlagType.noFace, now, q⟩] ∧
    ((addProctoringFlag FlagType.noFace now q s).flags.filter isNoFaceFlag).length
      = (s.flags.filter isNoFaceFlag).length + 1 ∧
    ((addProctoringFlag FlagType.noFace now q s).toasts ≠ s.toasts
      ↔ (s.flags.filter isNoFaceFlag).length % 3 = 0) := by
  have hne : ¬ (s.flags.any (isRecent FlagType.noFace now) = true) := by
    simp [h]
  refine ⟨?_, ?_, ?_⟩
  · simp [addProctoringFlag, hne]
  · simp [addProctoringFlag, hne, List.filter_append, isNoFaceFlag]
  · simp only [addProctoringFlag, hne, if_neg, if_false]
    by_cases h3 : (s.flags.filter isNoFaceFlag).length % 3 = 0
    · have : noFaceNotify FlagType.noFace s.flags = true := by
        simp [noFaceNotify, h3]
      simp [this, h3]
    · have : noFaceNotify FlagType.noFace s.flags = false := by
        simp [noFaceNotify, h3]
      simp [this, h3]

/-- Witness for C5 (amended): the session's first NO_FACE call (empty log,
t = 0) is appended and notified, and the new log holds one NO_FACE entry. -/
theorem c5_no_face_every_third_witness :
    (addProctoringFlag FlagType.noFace 0 0 emptyProctorState).flags
      = [⟨FlagType.noFace, 0, 0⟩] ∧
    ((addProctoringFlag FlagType.noFace 0 0 emptyProctorState).flags.filter isNoFaceFlag).length = 1 ∧
    ((addProctoringFlag FlagType.noFace 0 0 emptyProctorState).toasts ≠ emptyProctorState.toasts ↔ 0 % 3 = 0) :=
  c5_no_face_every_third emptyProctorState 0 0 rfl

/-- A 2-D facial landmark point, coordinates over `ℚ`. -/
structure Pt where
  x : ℚ
  y : ℚ
deriving DecidableEq

/-- `getCenter` from part_005 (lines 230-240): coordinate-wise mean of a
landmark group. -/
def getCenter (ps : List Pt) : Pt :=
  ⟨(ps.foldl (fun a p => a + p.x) 0) / ps.length,
   (ps.foldl (fun a p => a + p.y) 0) / ps.length⟩

/-- The landmark groups face-api.js exposes and part_005 reads: nose,
left/right eye, mouth, jaw outline. -/
structure FaceLandmarks where
  nose : List Pt
  leftEye : List Pt
  rightEye : List Pt
  mouth : List Pt
  jawOutline : List Pt

/-- `calculateHeadPose` from part_005 (lines 200-228): yaw is the nose-tip
(`nose[3]`) horizontal offset from the eye-center axis, divided by the
inter-eye distance and scaled by 90; pitch is the mouth-center vertical
offset from the eye-center, recentred by half the face height
(eye-center to `jawOutline[8]`), divided by the face height and scaled
by 60. An out-of-range landmark index is modelled as the origin. -/
def calculateHeadPose (lm : FaceLandmarks) : ℚ × ℚ :=
  let noseTip := lm.nose.getD 3 ⟨0, 0⟩
  let leftEyeCenter := getCenter lm.leftEye
  let rightEyeCenter := getCenter lm.rightEye
  let eyeCenterX := (leftEyeCenter.x + rightEyeCenter.x) / 2
  let noseOffset := noseTip.x - eyeCenterX
  let eyeDistance := |rightEyeCenter.x - leftEyeCenter.x|
  let yaw := (noseOffset / eyeDistance) * 90
  let eyeCenterY := (leftEyeCenter.y + rightEyeCenter.y) / 2
  let mouthCenter := getCenter lm.mouth
  let verticalDistance := mouthCenter.y - eyeCenterY
  let faceHeight := (lm.jawOutline.getD 8 ⟨0, 0⟩).y - eyeCenterY
  let pitch := ((verticalDistance - faceHeight * (1 / 2)) / faceHeight) * 60
  (yaw, pitch)

/-- The `detections.length === 1` branch of `startFaceDetection` in part_005
(lines 179-192): the `addProctoringFlag` invocations the tick fires for a
single detected face with landmarks. -/
def singleFaceChecks (lm : FaceLandmarks) : List FlagType :=
  (if 30 < |(calculateHeadPose lm).1| then [FlagType.headTurned] else []) ++
  (if 25 < |(calculateHeadPose lm).2| then [FlagType.headTilted] else [])

/-- Claim C7: for a single detected face with landmarks, a HEAD_TURNED
violation fires iff the yaw — nose-tip horizontal offset from the eye-center
axis, normalized by inter-eye distance, scaled by 90 degrees — exceeds 30 in
absolute value, and a HEAD_TILTED violation fires iff the pitch — mouth-center
vertical offset from the eye-center, recentred by and normalized by the
face-height estimate (eye-center to jaw-bottom), scaled by 60 degrees —
exceeds 25 in absolute value. -/
theorem c7_head_pose_thresholds (lm : FaceLandmarks) :
    (FlagType.headTurned ∈ singleFaceChecks lm ↔
      30 < |((lm.nose.getD 3 ⟨0, 0⟩).x
               - ((getCenter lm.leftEye).x + (getCenter lm.rightEye).x) / 2)
             / |(getCenter lm.rightEye).x - (getCenter lm.leftEye).x| * 90|) ∧
    (FlagType.headTilted ∈ singleFaceChecks lm ↔
      25 < |(((getCenter lm.mouth).y
                - ((getCenter lm.leftEye).y + (getCenter lm.rightEye).y) / 2)
              - ((lm.jawOutline.getD 8 ⟨0, 0⟩).y
                  - ((getCenter lm.leftEye).y + (getCenter lm.rightEye).y) / 2) * (1 / 2))
             / ((lm.jawOutline.getD 8 ⟨0, 0⟩).y
                 - ((getCenter lm.leftEye).y + (getCenter lm.rightEye).y) / 2) * 60|) := by
  have hy : (calculateHeadPose lm).1
      = ((lm.nose.getD 3 ⟨0, 0⟩).x
           - ((getCenter lm.leftEye).x + (getCenter lm.rightEye).x) / 2)
         / |(getCenter lm.rightEye).x - (getCenter lm.leftEye).x| * 90 := rfl
  have hp : (calculateHeadPose lm).2
      = (((getCenter lm.mouth).y
            - ((getCenter lm.leftEye).y + (getCenter lm.rightEye).y) / 2)
          - ((lm.jawOutline.getD 8 ⟨0, 0⟩).y
              - ((getCenter lm.leftEye).y + (getCenter lm.rightEye).y) / 2) * (1 / 2))
         / ((lm.jawOutline.getD 8 ⟨0, 0⟩).y
             - ((getCenter lm.leftEye).y + (getCenter lm.rightEye).y) / 2) * 60 := rfl
  rw [← hy, ← hp]
  by_cases h1 : 30 < |(calculateHeadPose lm).1| <;>
    by_cases h2 : 25 < |(calculateHeadPose lm).2| <;>
    simp [singleFaceChecks, h1, h2]

/-- The `addViolation` messages of InterviewRecorder.jsx, by kind (the text
is fixed per kind; `multipleFacesMsg` carries the interpolated count). -/
inductive RecViolation where
  | noFaceMsg
  | multipleFacesMsg (count : Nat)
  | tabBlurMsg
  | pasteMsg
deriving DecidableEq

/-- The `proctoring.current` ref of InterviewRecorder.jsx and part_000:
`{ tab_blur_count, multiple_faces, face_count }`. -/
structure RecorderProctoring where
  tab_blur_count : Nat
  multiple_faces : Bool
  face_count : Nat
deriving DecidableEq

/-- Detection-visible component state of InterviewRecorder.jsx: the
proctoring ref, the `faceCount` UI state, and the `violations` log. -/
structure RecorderUIState where
  proctoring : RecorderProctoring
  faceCount : Nat
  violations : List RecViolation
deriving DecidableEq

def initialUIState : RecorderUIState := ⟨⟨0, false, 0⟩, 0, []⟩

/-- One tick of the native `FaceDetector` branch of `startFaceDetection` in
InterviewRecorder.jsx (lines 86-104), given the detected face count:
`setFaceCount(count)` and `proctoring.current.face_count = count` always;
`count === 0` adds a no-face violation; `count > 1` sets
`multiple_faces = true` and adds a multiple-faces violation; otherwise
(exactly one face) the code sets `multiple_faces = false`. -/
def nativeTick (st : RecorderUIState) (count : Nat) : RecorderUIState :=
  let st := { st with faceCount := count
                      proctoring := { st.proctoring with face_count := count } }
  if count = 0 then
    { st with violations := st.violations ++ [RecViolation.noFaceMsg] }
  else if 1 < count then
    { st with proctoring := { st.proctoring with multiple_faces := true }
              violations := st.violations ++ [RecViolation.multipleFacesMsg count] }
  else
    { st with proctoring := { st.proctoring with multiple_faces := false } }

/-- One tick of `startFaceDetection` in the part_000 recorder (lines 38-48):
`count > 1` sets `multiple_faces = true` and updates `face_count`; any other
count only updates `face_count`, leaving `multiple_faces` untouched. -/
def legacyTick (p : RecorderProctoring) (count : Nat) : RecorderProctoring :=
  if 1 < count then { p with multiple_faces := true, face_count := count }
  else { p with face_count := count }

/-- Claim C2 (counterexample): in InterviewRecorder.jsx the
`multiple_faces` flag is not sticky. From the initial state, a tick
reporting 2 faces sets it true, and the very next tick reporting 1 face
resets it to false (line 103 of the source: the `count === 1` branch
assigns `multiple_faces = false`). -/
theorem c2_sticky_counterexample :
    (nativeTick initialUIState 2).proctoring.multiple_faces = true ∧
    (nativeTick (nativeTick initialUIState 2) 1).proctoring.multiple_faces = false := by
  decide

/-- Claim C2 (amended): in the part_000 detection loop the flag is sticky —
once `multiple_faces` is true, no sequence of later ticks (in particular
ticks reporting one face) resets it — and every tick updates the momentary
`face_count` to the observed count. In InterviewRecorder.jsx's loop a tick
reporting exactly one face resets the flag to false. -/
theorem c2_multiple_faces_sticky :
    (∀ (p : RecorderProctoring) (counts : List Nat), p.multiple_faces = true →
      (counts.foldl legacyTick p).multiple_faces = true) ∧
    (∀ (p : RecorderProctoring) (c : Nat), (legacyTick p c).face_count = c) := by
  constructor
  · intro p counts
    induction counts generalizing p with
    | nil => intro h; simpa using h
    | cons c rest ih =>
      intro h
      refine ih _ ?_
      unfold legacyTick
      split <;> simp [h]
  · intro p c
    unfold legacyTick
    split <;> rfl

/-- Witness for C2 (amended): a state with the flag already tripped keeps it
through ticks reporting 1, 0, 1 faces, and a tick reporting 1 face sets
`face_count` to 1. -/
theorem c2_multiple_faces_sticky_witness :
    (List.foldl legacyTick ⟨0, true, 2⟩ [1, 0, 1]).multiple_faces = true ∧
    (legacyTick ⟨0, true, 2⟩ 1).face_count = 1 :=
  ⟨c2_multiple_faces_sticky.1 ⟨0, true, 2⟩ [1, 0, 1] rfl,
   c2_multiple_faces_sticky.2 ⟨0, true, 2⟩ 1⟩

/-- One RGB pixel of the sampled frame (the canvas data is RGBA; the alpha
byte is skipped by the `i += 4` stride and not modelled). -/
structure Px where
  r : Nat
  g : Nat
  b : Nat
deriving DecidableEq

/-- The skin-tone test of the fallback branch in InterviewRecorder.jsx
(line 114): `r > 95 && g > 40 && b > 20 && r > g && r > b && |r - g| > 15`. -/
def isSkin (p : Px) : Bool :=
  decide (95 < p.r) && decide (40 < p.g) && decide (20 < p.b) &&
  decide (p.g < p.r) && decide (p.b < p.r) &&
  decide (15 < |(p.r : Int) - (p.g : Int)|)

/-- One tick of the pixel-heuristic fallback branch of `startFaceDetection`
in InterviewRecorder.jsx (lines 105-126), run when the native `FaceDetector`
is unavailable: count skin pixels, compute `skinPixels / (width * height)`,
and report face count 0 (with a no-face violation) when the ratio is below
0.02, else face count 1. The branch never touches `proctoring.current`. -/
def fallbackTick (st : RecorderUIState) (pixels : List Px) (w h : Nat) : RecorderUIState :=
  if ((pixels.filter isSkin).length : ℚ) / ((w * h : Nat) : ℚ) < 2 / 100 then
    { st with faceCount := 0, violations := st.violations ++ [RecViolation.noFaceMsg] }
  else
    { st with faceCount := 1 }

/-- One sampled frame for the fallback detector: its pixels and the canvas
dimensions. -/
structure FallbackFrame where
  pixels : List Px
  w : Nat
  h : Nat

def fallbackStep (st : RecorderUIState) (fr : FallbackFrame) : RecorderUIState :=
  fallbackTick st fr.pixels fr.w fr.h

/-- Claim C10: under the pixel-heuristic fallback detector every tick reports
face count 0 or 1 — 0 exactly when the skin ratio is below 0.02, else 1 — the
`proctoring` ref (hence `multiple_faces`) is never touched, no multiple-faces
violation is ever added, and over any sequence of fallback ticks
`multiple_faces` keeps its initial value, so it is never set true. -/
theorem c10_fallback_single_face :
    ∀ (st : RecorderUIState) (pixels : List Px) (w h : Nat),
      (fallbackTick st pixels w h).faceCount ≤ 1 ∧
      ((fallbackTick st pixels w h).faceCount
        = if ((pixels.filter isSkin).length : ℚ) / ((w * h : Nat) : ℚ) < 2 / 100
          then 0 else 1) ∧
      (fallbackTick st pixels w h).proctoring = st.proctoring ∧
      (∀ c : Nat, RecViolation.multipleFacesMsg c ∈ (fallbackTick st pixels w h).violations
        ↔ RecViolation.multipleFacesMsg c ∈ st.violations) ∧
      (∀ frames : List FallbackFrame,
        (frames.foldl fallbackStep st).proctoring.multiple_faces
          = st.proctoring.multiple_faces) := by
  intro st pixels w h
  refine ⟨?_, ?_, ?_, ?_, ?_⟩
  · unfold fallbackTick; split <;> simp
  · unfold fallbackTick; split <;> simp_all
  · unfold fallbackTick; split <;> rfl
  · intro c; unfold fallbackTick; split <;> simp
  · intro frames
    induction frames generalizing st with
    | nil => rfl
    | cons fr rest ih =>
      have hstep : (fallbackStep st fr).proctoring = st.proctoring := by
        unfold fallbackStep fallbackTick; split <;> rfl
      simp only [List.foldl_cons, ih, hstep]

/-- Session lifecycle states reachable by `startInterview` of
InterviewRecorder.jsx: the `recording` React state is false (Idle) or true
(Recording). -/
inductive SessionState where
  | idle
  | recording
deriving DecidableEq

/-- Environment of one `startInterview` run in InterviewRecorder.jsx: whether
a simulation id is present, whether the `window.confirm` pre-prompt is
accepted, and whether `getUserMedia`, the backend `/start` call, and
`getDisplayMedia` succeed. -/
structure StartEnv where
  simulationPresent : Bool
  prePromptAccepted : Bool
  cameraOk : Bool
  attemptOk : Bool
  screenOk : Bool
deriving DecidableEq

/-- Outcome of `startInterview`: the session state, which recorders were
started, whether the screen-denial warning was logged, and how many
device-capability calls (`getUserMedia`, `getDisplayMedia`) were made. -/
structure StartResult where
  state : SessionState
  cameraRecorder : Bool
  screenRecorder : Bool
  screenWarning : Bool
  deviceCalls : Nat
deriving DecidableEq

/-- `startInterview` from InterviewRecorder.jsx (lines 148-243): missing
simulation id or a declined pre-prompt return before touching any device;
camera/microphone failure returns after one device call; a failing `/start`
call hits the outer catch; screen capture is requested after the camera
recorder starts and its failure is caught (warning logged) so the session
still reaches Recording with the camera recorder only. -/
def startInterview (env : StartEnv) : StartResult :=
  if env.simulationPresent = false then ⟨SessionState.idle, false, false, false, 0⟩
  else if env.prePromptAccepted = false then ⟨SessionState.idle, false, false, false, 0⟩
  else if env.cameraOk = false then ⟨SessionState.idle, false, false, false, 1⟩
  else if env.attemptOk = false then ⟨SessionState.idle, false, false, false, 1⟩
  else if env.screenOk then ⟨SessionState.recording, true, true, false, 2⟩
  else ⟨SessionState.recording, true, false, true, 2⟩

/-- Chunks a recorder started with `start(2000)` emits over `n` two-second
intervals: `n` if the recorder runs, none otherwise. -/
def cameraChunksEmitted (r : StartResult) (n : Nat) : Nat :=
  if r.cameraRecorder then n else 0

def screenChunksEmitted (r : StartResult) (n : Nat) : Nat :=
  if r.screenRecorder then n else 0

/-- `startInterview` from the part_005 InterviewRoom (lines 82-146), reduced
to its recording outcome: camera failure is caught and nothing starts; a
denied screen capture is caught but runs `cleanup()` and returns, so the
session never starts recording; only camera plus screen success reaches
`isRecording = true`. -/
def roomStartInterview (cameraOk screenOk : Bool) : Bool :=
  if cameraOk = false then false
  else if screenOk = false then false
  else true

/-- Claim C3 (counterexample): in the part_005 InterviewRoom, start with the
camera granted and screen capture denied does NOT transition to Recording —
the screen-denial handler runs `cleanup()` and returns (lines 126-131), so
the session aborts — while the same component records when both are granted. -/
theorem c3_screen_optional_counterexample :
    roomStartInterview true false = false ∧ roomStartInterview true true = true := by
  decide

/-- Claim C3 (amended): in InterviewRecorder.jsx, when the simulation id,
pre-prompt, camera acquisition and attempt creation succeed but screen
capture fails or is denied, `startInterview` still reaches Recording with
camera-only recording and a logged warning: the camera recorder runs and
emits a chunk every interval, and no screen chunk is ever emitted. In the
part_005 InterviewRoom, by contrast, screen capture is mandatory and its
denial aborts the start. -/
theorem c3_camera_only_recording (env : StartEnv)
    (hsim : env.simulationPresent = true) (hpre : env.prePromptAccepted = true)
    (hcam : env.cameraOk = true) (hatt : env.attemptOk = true)
    (hscr : env.screenOk = false) :
    (startInterview env).state = SessionState.recording ∧
    (startInterview env).cameraRecorder = true ∧
    (startInterview env).screenRecorder = false ∧
    (startInterview env).screenWarning = true ∧
    (∀ n : Nat, cameraChunksEmitted (startInterview env) n = n) ∧
    (∀ n : Nat, screenChunksEmitted (startInterview env) n = 0) := by
  obtain ⟨a, b, c, d, e⟩ := env
  simp only at hsim hpre hcam hatt hscr
  subst hsim hpre hcam hatt hscr
  refine ⟨rfl, rfl, rfl, rfl, ?_, ?_⟩ <;>
    intro n <;> rfl

/-- Witness for C3 (amended): the concrete environment with everything
granted except screen capture. -/
theorem c3_camera_only_recording_witness :
    (startInterview ⟨true, true, true, true, false⟩).state = SessionState.recording ∧
    (startInterview ⟨true, true, true, true, false⟩).cameraRecorder = true ∧
    (startInterview ⟨true, true, true, true, false⟩).screenRecorder = false ∧
    (startInterview ⟨true, true, true, true, false⟩).screenWarning = true ∧
    (∀ n : Nat, cameraChunksEmitted (startInterview ⟨true, true, true, true, false⟩) n = n) ∧
    (∀ n : Nat, screenChunksEmitted (startInterview ⟨true, true, true, true, false⟩) n = 0) :=
  c3_camera_only_recording ⟨true, true, true, true, false⟩ rfl rfl rfl rfl rfl

/-- Claim C6: if the informative `window.confirm` pre-prompt is declined,
`startInterview` returns before `getUserMedia` or `getDisplayMedia` is ever
invoked — zero device-capability calls — no recorder starts, and the session
state remains Idle. -/
theorem c6_preprompt_declined_no_device (env : StartEnv)
    (h : env.prePromptAccepted = false) :
    (startInterview env).deviceCalls = 0 ∧
    (startInterview env).state = SessionState.idle ∧
    (startInterview env).cameraRecorder = false ∧
    (startInterview env).screenRecorder = false := by
  obtain ⟨a, b, c, d, e⟩ := env
  simp only at h
  subst h
  cases a <;> exact ⟨rfl, rfl, rfl, rfl⟩

/-- Witness for C6: simulation present, pre-prompt declined, all devices
available — still no device call and the state stays Idle. -/
theorem c6_preprompt_declined_no_device_witness :
    (startInterview ⟨true, false, true, true, true⟩).deviceCalls = 0 ∧
    (startInterview ⟨true, false, true, true, true⟩).state = SessionState.idle ∧
    (startInterview ⟨true, false, true, true, true⟩).cameraRecorder = false ∧
    (startInterview ⟨true, false, true, true, true⟩).screenRecorder = false :=
  c6_preprompt_declined_no_device ⟨true, false, true, true, true⟩ rfl

/-- State touched by `stopInterview` in InterviewRecorder.jsx: whether each
recorder and the detection interval and paste listener are active, the
`recording` flag, and counters of `editor_events` summary uploads and
`finish` calls made so far. -/
structure StopState where
  camRecActive : Bool
  screenRecActive : Bool
  detectionActive : Bool
  pasteListener : Bool
  recording : Bool
  summaryUploads : Nat
  finishCalls : Nat
deriving DecidableEq

/-- `stopInterview` from InterviewRecorder.jsx (lines 255-273): each recorder
is stopped only if its `state !== "inactive"`; face detection and the paste
listener are torn down; then — on every call, with no guard — the
`editor_events` summary chunk is uploaded and `finish` is posted, and
`recording` is set false. -/
def stopInterview (s : StopState) : StopState :=
  let s1 := if s.camRecActive then { s with camRecActive := false } else s
  let s2 := if s1.screenRecActive then { s1 with screenRecActive := false } else s1
  { s2 with detectionActive := false
            pasteListener := false
            summaryUploads := s2.summaryUploads + 1
            finishCalls := s2.finishCalls + 1
            recording := false }

/-- Claim C4 (counterexample): from a live session (both recorders active, no
submissions yet), calling `stopInterview` twice in a row uploads the
`editor_events` summary twice and calls `finish` twice — the second call is
not a no-op with respect to the summary upload and the finish call. -/
theorem c4_double_stop_counterexample :
    (stopInterview (stopInterview ⟨true, true, true, true, true, 0, 0⟩)).summaryUploads = 2 ∧
    (stopInterview (stopInterview ⟨true, true, true, true, true, 0, 0⟩)).finishCalls = 2 ∧
    (stopInterview ⟨true, true, true, true, true, 0, 0⟩).summaryUploads = 1 ∧
    (stopInterview ⟨true, true, true, true, true, 0, 0⟩).finishCalls = 1 := by
  decide

/-- Claim C4 (amended): recorder teardown is idempotent — after one
`stopInterview` both recorders, the detection loop and the paste listener
are inactive, so a second call finds nothing to stop — but every call,
including the second, uploads the `editor_events` summary once more and
calls `finish` once more: stop() twice double-submits the final summary. -/
theorem c4_stop_teardown_resubmits (s : StopState) :
    (stopInterview s).camRecActive = false ∧
    (stopInterview s).screenRecActive = false ∧
    (stopInterview s).detectionActive = false ∧
    (stopInterview s).pasteListener = false ∧
    (stopInterview s).recording = false ∧
    (stopInterview s).summaryUploads = s.summaryUploads + 1 ∧
    (stopInterview s).finishCalls = s.finishCalls + 1 := by
  obtain ⟨a, b, c, d, e, m, k⟩ := s
  cases a <;> cases b <;> exact ⟨rfl, rfl, rfl, rfl, rfl, rfl, rfl⟩

/-- Narration requests issued through speech synthesis by
InterviewRecorder.jsx: a question text or the fixed closing message. -/
inductive Narr where
  | question (text : String)
  | closing
deriving DecidableEq

/-- `nextQuestion` from InterviewRecorder.jsx (lines 245-253): if
`currentQuestion < questions.length - 1` the cursor advances and the next
question is narrated; otherwise the closing message is narrated and the
cursor is left unchanged. (`cursor + 1 < length` is the integer reading of
the JavaScript `cursor < length - 1`.) -/
def nextQuestion (cursor : Nat) (questions : List String) : Nat × Narr :=
  if cursor + 1 < questions.length then
    (cursor + 1, Narr.question (questions.getD (cursor + 1) ""))
  else
    (cursor, Narr.closing)

/-- Claim C8: with the cursor strictly before the last question, `next()`
increments the cursor and narrates the new question; at the last question it
narrates the closing message and leaves the cursor unchanged, so repeated
`next()` at the last question is idempotent on the cursor. -/
theorem c8_next_question (cursor : Nat) (questions : List String) :
    (cursor + 1 < questions.length →
      nextQuestion cursor questions
        = (cursor + 1, Narr.question (questions.getD (cursor + 1) ""))) ∧
    (cursor + 1 = questions.length →
      nextQuestion cursor questions = (cursor, Narr.closing) ∧
      nextQuestion (nextQuestion cursor questions).1 questions = (cursor, Narr.closing)) := by
  constructor
  · intro h
    simp [nextQuestion, h]
  · intro h
    have hlt : ¬ cursor + 1 < questions.length := by omega
    constructor
    · simp [nextQuestion, hlt]
    · simp [nextQuestion, hlt]

/-- Witness for C8: with two questions, `next()` at cursor 0 advances to
question 1; at cursor 1 (the last question) it narrates the closing message,
keeps the cursor at 1, and doing it again still keeps the cursor at 1. -/
theorem c8_next_question_witness :
    nextQuestion 0 ["q0", "q1"] = (1, Narr.question "q1") ∧
    (nextQuestion 1 ["q0", "q1"] = (1, Narr.closing) ∧
      nextQuestion (nextQuestion 1 ["q0", "q1"]).1 ["q0", "q1"] = (1, Narr.closing)) :=
  ⟨(c8_next_question 0 ["q0", "q1"]).1 (by decide),
   (c8_next_question 1 ["q0", "q1"]).2 (by decide)⟩

/-- Result of one streaming-chunk network call in `uploadChunk`. -/
inductive NetResult where
  | ok
  | failed
deriving DecidableEq

/-- Caller-visible outcome of `uploadChunk`. -/
structure UploadOutcome where
  raised : Bool
  warnLogged : Bool
  attempts : Nat
deriving DecidableEq

/-- `uploadChunk` from InterviewRecorder.jsx (lines 275-282): one POST of the
chunk whose rejection is consumed by `.catch` with a console warning — no
error reaches the caller and no retry is attempted. -/
def uploadChunk (net : NetResult) : UploadOutcome :=
  match net with
  | NetResult.ok => ⟨false, false, 1⟩
  | NetResult.failed => ⟨false, true, 1⟩

/-- `uploadChunk` is called from a recorder `ondataavailable` callback; it
never touches the recording flag, so the recording in progress continues
regardless of the upload outcome. -/
def uploadChunkDuringRecording (recording : Bool) (net : NetResult) : Bool × UploadOutcome :=
  (recording, uploadChunk net)

/-- Claim C9: a streaming chunk upload never propagates an error to its
caller — a network failure is logged (exactly when the call failed) and
swallowed — exactly one attempt is made (no retry), and the recording state
is untouched, so a dropped chunk never interrupts the recording. -/
theorem c9_upload_best_effort :
    ∀ (recording : Bool) (net : NetResult),
      (uploadChunk net).raised = false ∧
      (uploadChunk net).attempts = 1 ∧
      ((uploadChunk net).warnLogged = true ↔ net = NetResult.failed) ∧
      (uploadChunkDuringRecording recording net).1 = recording := by
  intro recording net
  cases net <;> exact ⟨rfl, rfl, by decide, rfl⟩
